import Mathlib

/-!
# Verification of the architecture notebooks

Shallow embedding of the two notebooks `1.0-vgg-19.ipynb` and
`1.2-mobile-net.ipynb`.  Each `torch.nn` layer that the notebooks
instantiate is embedded as a configuration value; the semantics we need
(output shapes of a forward pass, learnable-parameter counts, the frame
property of `forward`) are defined over those configurations, following
the framework's documented behaviour of each primitive.
-/

namespace VisionNotebooks

/-- Configuration of an `nn.Conv2d` layer: the arguments the notebooks pass
(`in_channels`, `out_channels`, `kernel_size`, `stride`, `padding`,
`groups`); `stride` defaults to 1 and `groups` to 1 when omitted. -/
structure Conv2dCfg where
  in_channels : Nat
  out_channels : Nat
  kernel_size : Nat
  stride : Nat
  padding : Nat
  groups : Nat
deriving DecidableEq, Repr

/-- A layer primitive as instantiated by the notebooks. -/
inductive Layer where
  | conv2d (cfg : Conv2dCfg)
  | relu
  | maxPool2d (kernel_size stride : Nat)
  | dropout (p : ℚ)
  | linear (in_features out_features : Nat)
  | adaptiveAvgPool2d (output_size : Nat)
deriving DecidableEq

/-- `nn.Conv2d(cin, cout, kernel_size=k, padding=p)` with default
stride 1 and groups 1, as written throughout the VGG19 notebook. -/
def conv3x3 (cin cout : Nat) : Layer :=
  .conv2d ⟨cin, cout, 3, 1, 1, 1⟩

/-- `VGG19.feature_extractor`: the `nn.Sequential` of convolutional,
ReLU and max-pooling layers, in source order
(notebook `1.0-vgg-19.ipynb`, cell defining `VGG19`). -/
def VGG19.feature_extractor : List Layer :=
  [ conv3x3 3 64, .relu,
    conv3x3 64 64, .relu,
    .maxPool2d 2 2,
    conv3x3 64 128, .relu,
    conv3x3 128 128, .relu,
    .maxPool2d 2 2,
    conv3x3 128 256, .relu,
    .maxPool2d 2 2,
    conv3x3 256 256, .relu,
    conv3x3 256 256, .relu,
    conv3x3 256 256, .relu,
    .maxPool2d 2 2,
    conv3x3 256 512, .relu,
    conv3x3 512 512, .relu,
    conv3x3 512 512, .relu,
    conv3x3 512 512, .relu,
    .maxPool2d 2 2 ]

/-- `VGG19.classifier`: the fully connected head, in source order. -/
def VGG19.classifier (num_classes : Nat) : List Layer :=
  [ .linear (512 * 7 * 7) 4096, .relu, .dropout 0.5,
    .linear 4096 4096, .relu, .dropout 0.5,
    .linear 4096 num_classes ]

/-! ## Shape semantics of a forward pass

A per-batch-element activation shape is `(channels, height, width)`;
the batch dimension is carried separately since every layer used here
acts independently on each batch element.  Failure cases follow the
framework: a convolution or pooling whose computed output size would be
non-positive raises, a `Linear` applied to the wrong number of input
features raises. -/

structure Shape3 where
  channels : Nat
  height : Nat
  width : Nat
deriving DecidableEq, Repr

/-- Errors a forward pass can raise. -/
inductive ShapeError where
  | channelMismatch (expected got : Nat)
  | outputTooSmall
  | featureMismatch (expected got : Nat)
  | badLayer
deriving DecidableEq, Repr

/-- Output spatial extent of a convolution/pooling window:
`floor((size + 2*padding - kernel) / stride) + 1`, raising when the
padded input is smaller than the kernel (output size would be < 1). -/
def convOutDim (size kernel stride padding : Nat) : Except ShapeError Nat :=
  if size + 2 * padding < kernel then .error .outputTooSmall
  else .ok ((size + 2 * padding - kernel) / stride + 1)

/-- Shape action of `nn.Conv2d`: checks the input channel count and
maps both spatial dimensions through `convOutDim`. -/
def conv2dShape (cfg : Conv2dCfg) (s : Shape3) : Except ShapeError Shape3 :=
  if s.channels = cfg.in_channels then do
    let h ← convOutDim s.height cfg.kernel_size cfg.stride cfg.padding
    let w ← convOutDim s.width cfg.kernel_size cfg.stride cfg.padding
    .ok ⟨cfg.out_channels, h, w⟩
  else .error (.channelMismatch cfg.in_channels s.channels)

/-- Shape action of one layer on a 4-d activation (per batch element).
`ReLU` and `Dropout` are shape-preserving; `MaxPool2d` has no padding;
`AdaptiveAvgPool2d(o)` forces both spatial dimensions to `o` and raises
on an empty input; `Linear` does not accept this 4-d pipeline here
(the notebooks only apply it after flattening). -/
def Layer.applyShape : Layer → Shape3 → Except ShapeError Shape3
  | .conv2d cfg, s => conv2dShape cfg s
  | .relu, s => .ok s
  | .maxPool2d k st, s => do
      let h ← convOutDim s.height k st 0
      let w ← convOutDim s.width k st 0
      .ok ⟨s.channels, h, w⟩
  | .dropout _, s => .ok s
  | .adaptiveAvgPool2d o, s =>
      if s.height = 0 ∨ s.width = 0 then .error .outputTooSmall
      else .ok ⟨s.channels, o, o⟩
  | .linear _ _, _ => .error .badLayer

/-- Run a `nn.Sequential` of 4-d layers. -/
def runLayers (ls : List Layer) (s : Shape3) : Except ShapeError Shape3 :=
  match ls with
  | [] => .ok s
  | l :: rest => do
      let s' ← l.applyShape s
      runLayers rest s'

/-- Shape action of one layer on a flattened `(N, features)` activation
(per batch element): `Linear` requires exactly its `in_features`. -/
def Layer.applyFlat : Layer → Nat → Except ShapeError Nat
  | .linear fin fout, f =>
      if f = fin then .ok fout else .error (.featureMismatch fin f)
  | .relu, f => .ok f
  | .dropout _, f => .ok f
  | _, _ => .error .badLayer

/-- Run a `nn.Sequential` of flat layers. -/
def runFlatLayers (ls : List Layer) (f : Nat) : Except ShapeError Nat :=
  match ls with
  | [] => .ok f
  | l :: rest => do
      let f' ← l.applyFlat f
      runFlatLayers rest f'

/-- Number of features produced by `x.view(x.size(0), -1)` on a
`(N, C, H, W)` tensor: `C * H * W` per batch element. -/
def Shape3.flatten (s : Shape3) : Nat :=
  s.channels * s.height * s.width

/-- `VGG19.forward` at shape level: feature extractor, then flatten,
then classifier; the batch size `n` is carried through unchanged. -/
def VGG19.forward (num_classes n : Nat) (s : Shape3) :
    Except ShapeError (Nat × Nat) := do
  let f ← runLayers VGG19.feature_extractor s
  let flat := f.flatten
  let out ← runFlatLayers (VGG19.classifier num_classes) flat
  .ok (n, out)

/-! ## Layer census -/

def Layer.isConv2d : Layer → Bool
  | .conv2d _ => true
  | _ => false

def Layer.isLinear : Layer → Bool
  | .linear _ _ => true
  | _ => false

def Layer.isMaxPool : Layer → Bool
  | .maxPool2d _ _ => true
  | _ => false

/-- Number of `nn.Conv2d` layers in a sequential. -/
def convCount (ls : List Layer) : Nat :=
  (ls.filter Layer.isConv2d).length

/-- Number of `nn.Linear` layers in a sequential. -/
def linearCount (ls : List Layer) : Nat :=
  (ls.filter Layer.isLinear).length

/-- Output channel count of each convolutional stage: walking the
sequential while tracking the current channel count (starting from the
3 input channels), record it at each `MaxPool2d`. -/
def stageChannelsAux : List Layer → Nat → List Nat
  | [], _ => []
  | .conv2d cfg :: rest, _ => stageChannelsAux rest cfg.out_channels
  | .maxPool2d _ _ :: rest, c => c :: stageChannelsAux rest c
  | _ :: rest, c => stageChannelsAux rest c

def stageChannels (ls : List Layer) : List Nat :=
  stageChannelsAux ls 3

/-- Checks that a feature sequential is a concatenation of stages, each
stage being one or more `Conv2d`–`ReLU` pairs terminated by exactly one
`MaxPool2d(2, 2)`.  `n` counts the conv+ReLU pairs of the current stage. -/
def stagesWellFormedAux : List Layer → Nat → Bool
  | [], n => n = 0
  | .conv2d _ :: .relu :: rest, n => stagesWellFormedAux rest (n + 1)
  | .maxPool2d 2 2 :: rest, n => n ≠ 0 && stagesWellFormedAux rest 0
  | _, _ => false

def stagesWellFormed (ls : List Layer) : Bool :=
  stagesWellFormedAux ls 0

/-! ## MobileNet (notebook `1.2-mobile-net.ipynb`) -/

/-- The `DepthwiseSeparableConv` module: its constructor arguments. -/
structure DepthwiseSeparableConv where
  in_channels : Nat
  out_channels : Nat
  stride : Nat
deriving DecidableEq, Repr

/-- `self.depthwise`: `nn.Conv2d(in_channels, in_channels, kernel_size=3,
stride=stride, padding=1, groups=in_channels)`. -/
def DepthwiseSeparableConv.depthwise (m : DepthwiseSeparableConv) : Conv2dCfg :=
  ⟨m.in_channels, m.in_channels, 3, m.stride, 1, m.in_channels⟩

/-- `self.pointwise`: `nn.Conv2d(in_channels, out_channels, kernel_size=1,
stride=1, padding=0)` (default groups 1). -/
def DepthwiseSeparableConv.pointwise (m : DepthwiseSeparableConv) : Conv2dCfg :=
  ⟨m.in_channels, m.out_channels, 1, 1, 0, 1⟩

/-- `DepthwiseSeparableConv.forward`: depthwise, then pointwise. -/
def DepthwiseSeparableConv.forward (m : DepthwiseSeparableConv)
    (x : Shape3) : Except ShapeError Shape3 := do
  let x ← conv2dShape m.depthwise x
  let x ← conv2dShape m.pointwise x
  .ok x

/-- `self.conv1 = nn.Conv2d(3, 32, kernel_size=3, stride=2, padding=1)`. -/
def MobileNet.conv1 : Conv2dCfg := ⟨3, 32, 3, 2, 1, 1⟩

/-- The MobileNet body: the thirteen `DepthwiseSeparableConv` modules
`dw_conv2` … `dw_conv14`, in source order. -/
def MobileNet.body : List DepthwiseSeparableConv :=
  [ ⟨32, 64, 1⟩,
    ⟨64, 128, 2⟩,
    ⟨128, 128, 1⟩,
    ⟨128, 256, 2⟩,
    ⟨256, 256, 1⟩,
    ⟨256, 512, 2⟩,
    ⟨512, 512, 1⟩,
    ⟨512, 512, 1⟩,
    ⟨512, 512, 1⟩,
    ⟨512, 512, 1⟩,
    ⟨512, 512, 1⟩,
    ⟨512, 1024, 2⟩,
    ⟨1024, 1024, 1⟩ ]

/-- `self.avg_pool = nn.AdaptiveAvgPool2d(1)`. -/
def MobileNet.avg_pool : Layer := .adaptiveAvgPool2d 1

/-- `self.fc = nn.Linear(1024, num_classes)`. -/
def MobileNet.fc (num_classes : Nat) : Layer := .linear 1024 num_classes

/-- The body of `MobileNet.forward` after `conv1` and its ReLU: each
depthwise-separable module followed by `F.relu`. -/
def MobileNet.runBody : List DepthwiseSeparableConv → Shape3 →
    Except ShapeError Shape3
  | [], x => .ok x
  | m :: rest, x => do
      let x ← m.forward x
      let x ← Layer.relu.applyShape x
      MobileNet.runBody rest x

/-- `MobileNet.forward` at shape level: `conv1`, ReLU, the thirteen
depthwise-separable blocks each followed by ReLU, adaptive average
pooling, `x.view(x.size(0), -1)`, and `fc`; the batch size `n` is
carried through unchanged.  (`F.relu` is shape-preserving, so the body
is the fold of the modules alone.) -/
def MobileNet.forward (num_classes n : Nat) (s : Shape3) :
    Except ShapeError (Nat × Nat) := do
  let x ← conv2dShape MobileNet.conv1 s
  let x ← Layer.relu.applyShape x
  let x ← MobileNet.runBody MobileNet.body x
  let x ← MobileNet.avg_pool.applyShape x
  let flat := x.flatten
  let out ← (MobileNet.fc num_classes).applyFlat flat
  .ok (n, out)

/-! ## Learnable parameters

Every parameter tensor a layer owns, with its element count and its
`requires_grad` flag.  `nn.Conv2d` and `nn.Linear` create a weight and
(bias being enabled by default) a bias, both with `requires_grad=True`;
neither notebook ever changes a `requires_grad` flag.  A `Conv2d`
weight has shape `(out_channels, in_channels / groups, k, k)`; a
`Linear` weight has shape `(out_features, in_features)`; biases have
one element per output channel/feature. -/

def Layer.parameters : Layer → List (Nat × Bool)
  | .conv2d cfg =>
      [(cfg.out_channels * (cfg.in_channels / cfg.groups) *
          (cfg.kernel_size * cfg.kernel_size), true),
       (cfg.out_channels, true)]
  | .linear fin fout => [(fout * fin, true), (fout, true)]
  | _ => []

/-- Total learnable parameters of a list of layers. -/
def totalParams (ls : List Layer) : Nat :=
  ((ls.map Layer.parameters).flatten.map Prod.fst).sum

/-- Total trainable (`requires_grad=True`) parameters. -/
def trainableParams (ls : List Layer) : Nat :=
  (((ls.map Layer.parameters).flatten.filter Prod.snd).map Prod.fst).sum

/-- All layers of `VGG19(num_classes)` that own parameters (module
registration order: `feature_extractor`, then `classifier`). -/
def VGG19.allLayers (num_classes : Nat) : List Layer :=
  VGG19.feature_extractor ++ VGG19.classifier num_classes

/-- The two `Conv2d` layers of a `DepthwiseSeparableConv` module. -/
def DepthwiseSeparableConv.layers (m : DepthwiseSeparableConv) : List Layer :=
  [.conv2d m.depthwise, .conv2d m.pointwise]

/-- All layers of `MobileNet(num_classes)` that own parameters (module
registration order: `conv1`, `dw_conv2` … `dw_conv14`, `avg_pool`, `fc`). -/
def MobileNet.allLayers (num_classes : Nat) : List Layer :=
  .conv2d MobileNet.conv1 ::
    (MobileNet.body.map DepthwiseSeparableConv.layers).flatten ++
    [MobileNet.avg_pool, MobileNet.fc num_classes]

/-- Whether a chain of `DepthwiseSeparableConv` modules applied in
order accepts `c` input channels: each module's `in_channels` must
equal the previous module's `out_channels`. -/
def chainedFrom : Nat → List DepthwiseSeparableConv → Bool
  | _, [] => true
  | c, m :: rest => c = m.in_channels && chainedFrom m.out_channels rest

/-- The channel count produced by a chain of `DepthwiseSeparableConv`
modules applied in order to a `c`-channel activation. -/
def lastChannels : Nat → List DepthwiseSeparableConv → Nat
  | c, [] => c
  | _, m :: rest => lastChannels m.out_channels rest

/-! ## The module object threaded through a forward pass

To express the frame property of `forward` (it reads the submodules and
their weights but never writes them), the module object is embedded as
a record over an abstract type `W` of submodule data (layer
configurations together with their parameter tensors), and `forward` is
embedded as a function from the module object and the input to the
module object after the call together with the result.  Each statement
of the Python method reads a field of `self` and rebinds only the local
`x`, so the returned object is built from the fields of the incoming
one exactly as the method body leaves them. -/

structure VGG19Module (W : Type) where
  feature_extractor : W
  classifier : W

/-- `VGG19.forward` as a transition on the module object: given the
semantics `ap` of calling a 4-d sequential submodule and `af` of
calling the flat classifier submodule, run the three statements of the
method body and return the module object as the call leaves it,
together with the per-batch-element result. -/
def VGG19Module.forwardRun {W : Type}
    (ap : W → Shape3 → Except ShapeError Shape3)
    (af : W → Nat → Except ShapeError Nat)
    (self : VGG19Module W) (x : Shape3) :
    VGG19Module W × Except ShapeError Nat :=
  match ap self.feature_extractor x with
  | .error e => (⟨self.feature_extractor, self.classifier⟩, .error e)
  | .ok x =>
      match af self.classifier x.flatten with
      | .error e => (⟨self.feature_extractor, self.classifier⟩, .error e)
      | .ok out => (⟨self.feature_extractor, self.classifier⟩, .ok out)

structure MobileNetModule (W : Type) where
  conv1 : W
  dw_conv2 : W
  dw_conv3 : W
  dw_conv4 : W
  dw_conv5 : W
  dw_conv6 : W
  dw_conv7 : W
  dw_conv8 : W
  dw_conv9 : W
  dw_conv10 : W
  dw_conv11 : W
  dw_conv12 : W
  dw_conv13 : W
  dw_conv14 : W
  avg_pool : W
  fc : W

/-- Rebuild a `MobileNetModule` from its fields as `forward` leaves
them: the method reads each field and never assigns to `self`. -/
def MobileNetModule.after {W : Type} (self : MobileNetModule W) :
    MobileNetModule W :=
  ⟨self.conv1, self.dw_conv2, self.dw_conv3, self.dw_conv4, self.dw_conv5,
   self.dw_conv6, self.dw_conv7, self.dw_conv8, self.dw_conv9,
   self.dw_conv10, self.dw_conv11, self.dw_conv12, self.dw_conv13,
   self.dw_conv14, self.avg_pool, self.fc⟩

/-- `MobileNet.forward` as a transition on the module object: `ap` is
the semantics of calling a convolutional submodule (with `F.relu`
applied after each, as in the method body), `apool` of `avg_pool`, and
`afc` of the final `fc` call on the flattened activation. -/
def MobileNetModule.forwardRun {W : Type}
    (ap : W → Shape3 → Except ShapeError Shape3)
    (apool : W → Shape3 → Except ShapeError Shape3)
    (afc : W → Nat → Except ShapeError Nat)
    (self : MobileNetModule W) (x : Shape3) :
    MobileNetModule W × Except ShapeError Nat :=
  let result : Except ShapeError Nat := do
    let x ← ap self.conv1 x
    let x ← Layer.relu.applyShape x
    let x ← ap self.dw_conv2 x
    let x ← Layer.relu.applyShape x
    let x ← ap self.dw_conv3 x
    let x ← Layer.relu.applyShape x
    let x ← ap self.dw_conv4 x
    let x ← Layer.relu.applyShape x
    let x ← ap self.dw_conv5 x
    let x ← Layer.relu.applyShape x
    let x ← ap self.dw_conv6 x
    let x ← Layer.relu.applyShape x
    let x ← ap self.dw_conv7 x
    let x ← Layer.relu.applyShape x
    let x ← ap self.dw_conv8 x
    let x ← Layer.relu.applyShape x
    let x ← ap self.dw_conv9 x
    let x ← Layer.relu.applyShape x
    let x ← ap self.dw_conv10 x
    let x ← Layer.relu.applyShape x
    let x ← ap self.dw_conv11 x
    let x ← Layer.relu.applyShape x
    let x ← ap self.dw_conv12 x
    let x ← Layer.relu.applyShape x
    let x ← ap self.dw_conv13 x
    let x ← Layer.relu.applyShape x
    let x ← ap self.dw_conv14 x
    let x ← Layer.relu.applyShape x
    let x ← apool self.avg_pool x
    afc self.fc x.flatten
  (self.after, result)

/-- The `VGG19(num_classes)` module object with its actual submodules. -/
def VGG19.module (num_classes : Nat) : VGG19Module (List Layer) :=
  ⟨VGG19.feature_extractor, VGG19.classifier num_classes⟩

/-! ## Basic lemmas about the `Except` plumbing -/

theorem exceptBindOk {α β : Type} (a : α) (f : α → Except ShapeError β) :
    (Except.ok a >>= f) = f a := rfl

theorem exceptBindError {α β : Type} (e : ShapeError)
    (f : α → Except ShapeError β) :
    ((Except.error e : Except ShapeError α) >>= f) = .error e := rfl

/-- A 3×3, padding-1 convolution or pooling window maps a spatial
extent `h ≥ 1` to `(h - 1) / s + 1`. -/
theorem convOutDim_k3p1 (h s : Nat) (hh : 1 ≤ h) :
    convOutDim h 3 s 1 = .ok ((h - 1) / s + 1) := by
  unfold convOutDim
  rw [if_neg (by omega), show h + 2 * 1 - 3 = h - 1 by omega]

/-- A 1×1, stride-1, zero-padding window preserves a spatial extent
`x ≥ 1`. -/
theorem convOutDim_k1 (x : Nat) (hx : 1 ≤ x) : convOutDim x 1 1 0 = .ok x := by
  unfold convOutDim
  rw [if_neg (by omega), show x + 2 * 0 - 1 = x - 1 by omega,
    Nat.div_one, Nat.sub_add_cancel hx]

/-- Evaluation rule for `conv2dShape` when the channel count matches
and both spatial maps succeed. -/
theorem conv2dShape_eval (cfg : Conv2dCfg) (s : Shape3) (a b : Nat)
    (hc : s.channels = cfg.in_channels)
    (eh : convOutDim s.height cfg.kernel_size cfg.stride cfg.padding = .ok a)
    (ew : convOutDim s.width cfg.kernel_size cfg.stride cfg.padding = .ok b) :
    conv2dShape cfg s = .ok ⟨cfg.out_channels, a, b⟩ := by
  unfold conv2dShape
  rw [if_pos hc, eh, exceptBindOk, ew, exceptBindOk]

/-- A `DepthwiseSeparableConv` on a matching activation with both
spatial extents ≥ 1 succeeds, producing `out_channels` channels and
dividing each spatial extent by its stride (rounding as the framework
does). -/
theorem dws_forward_eval (m : DepthwiseSeparableConv) (h w : Nat)
    (hh : 1 ≤ h) (hw : 1 ≤ w) :
    m.forward ⟨m.in_channels, h, w⟩ =
      .ok ⟨m.out_channels, (h - 1) / m.stride + 1, (w - 1) / m.stride + 1⟩ := by
  unfold DepthwiseSeparableConv.forward
  rw [conv2dShape_eval m.depthwise ⟨m.in_channels, h, w⟩ _ _ rfl
      (convOutDim_k3p1 h m.stride hh) (convOutDim_k3p1 w m.stride hw),
    exceptBindOk,
    conv2dShape_eval m.pointwise _ _ _ rfl
      (convOutDim_k1 _ (Nat.le_add_left 1 _))
      (convOutDim_k1 _ (Nat.le_add_left 1 _)),
    exceptBindOk]
  rfl

/-- A chained body of depthwise-separable blocks succeeds on any
activation with both spatial extents ≥ 1, producing its final channel
count and spatial extents that are again ≥ 1. -/
theorem runBody_eval : ∀ (ms : List DepthwiseSeparableConv) (c h w : Nat),
    chainedFrom c ms = true → 1 ≤ h → 1 ≤ w →
    ∃ h' w', MobileNet.runBody ms ⟨c, h, w⟩ = .ok ⟨lastChannels c ms, h', w'⟩ ∧
      1 ≤ h' ∧ 1 ≤ w'
  | [], _, h, w, _, hh, hw => ⟨h, w, rfl, hh, hw⟩
  | m :: rest, c, h, w, hc, hh, hw => by
    simp only [chainedFrom, Bool.and_eq_true, decide_eq_true_eq] at hc
    obtain ⟨hc1, hc2⟩ := hc
    subst hc1
    obtain ⟨h', w', e2, hh', hw'⟩ :=
      runBody_eval rest m.out_channels ((h - 1) / m.stride + 1)
        ((w - 1) / m.stride + 1) hc2 (Nat.le_add_left 1 _) (Nat.le_add_left 1 _)
    refine ⟨h', w', ?_, hh', hw'⟩
    unfold MobileNet.runBody
    rw [dws_forward_eval m h w hh hw]
    simp only [exceptBindOk, Layer.applyShape]
    exact e2

/-! ## Claim theorems -/

/-- C1: the notebook's markdown documents VGG19 as having 19 hidden
layers (16 convolutional plus 3 fully connected), but the
`feature_extractor` as coded contains only 12 `Conv2d` layers.  The
classifier does contain 3 `Linear` layers, so the model has 15 hidden
layers, not 19. -/
theorem c1_vgg19_layer_census :
    convCount VGG19.feature_extractor = 12 ∧
    (∀ num_classes : Nat, linearCount (VGG19.classifier num_classes) = 3) ∧
    convCount VGG19.feature_extractor + linearCount (VGG19.classifier 1000) ≠
      16 + 3 :=
  ⟨by decide, fun _ => rfl, by decide⟩

/-- C2: the `feature_extractor` is indeed a sequence of stages, each a
run of `Conv2d`–`ReLU` pairs closed by exactly one `MaxPool2d(2, 2)`,
but the stage output channel counts progress
64 → 128 → 256 → 256 → 512, not 64 → 128 → 256 → 512 → 512 as the
notebook's markdown documents. -/
theorem c2_vgg19_stage_channels :
    stagesWellFormed VGG19.feature_extractor = true ∧
    stageChannels VGG19.feature_extractor = [64, 128, 256, 256, 512] ∧
    stageChannels VGG19.feature_extractor ≠ [64, 128, 256, 512, 512] :=
  ⟨by decide, by decide, by decide⟩

/-- C5: on a `(N, 3, 224, 224)` input the feature extractor produces a
`(N, 512, 7, 7)` activation, which flattens to `25088 = 512 * 7 * 7`
features per batch element, and `VGG19(num_classes=C).forward` returns
a `(N, C)` tensor for every batch size `N` and every `C` — in
particular `(N, 1000)` for the default. -/
theorem c5_vgg19_forward_224 :
    runLayers VGG19.feature_extractor ⟨3, 224, 224⟩ = .ok ⟨512, 7, 7⟩ ∧
    Shape3.flatten ⟨512, 7, 7⟩ = 25088 ∧
    (∀ num_classes n : Nat,
      VGG19.forward num_classes n ⟨3, 224, 224⟩ = .ok (n, num_classes)) ∧
    (∀ n : Nat, VGG19.forward 1000 n ⟨3, 224, 224⟩ = .ok (n, 1000)) :=
  ⟨rfl, rfl, fun _ _ => rfl, fun _ => rfl⟩

/-- C6: `MobileNet(num_classes=1000)` has exactly 4,221,032 learnable
parameters and `VGG19(num_classes=1000)` exactly 134,228,008, and in
both models the trainable-parameter total equals the overall total
(every parameter is created with `requires_grad=True` and never
frozen). -/
theorem c6_total_params :
    totalParams (MobileNet.allLayers 1000) = 4221032 ∧
    totalParams (VGG19.allLayers 1000) = 134228008 ∧
    trainableParams (MobileNet.allLayers 1000) =
      totalParams (MobileNet.allLayers 1000) ∧
    trainableParams (VGG19.allLayers 1000) =
      totalParams (VGG19.allLayers 1000) :=
  ⟨by decide, by decide, by decide, by decide⟩

/-- C3: every `Conv2d` in VGG19's `feature_extractor` has a 3×3 kernel
with padding 1 and stride 1, and every `MaxPool2d` in it has a 2×2
window with stride 2. -/
theorem c3_vgg19_conv_pool_hyperparams :
    (∀ cfg : Conv2dCfg, Layer.conv2d cfg ∈ VGG19.feature_extractor →
        cfg.kernel_size = 3 ∧ cfg.padding = 1 ∧ cfg.stride = 1) ∧
    (∀ k s : Nat, Layer.maxPool2d k s ∈ VGG19.feature_extractor →
        k = 2 ∧ s = 2) := by
  constructor
  · intro cfg h
    simp only [VGG19.feature_extractor, conv3x3, List.mem_cons,
      List.not_mem_nil, or_false] at h
    rcases h with h|h|h|h|h|h|h|h|h|h|h|h|h|h|h|h|h|h|h|h|h|h|h|h|h|h|h|h|h <;>
      first
        | exact Layer.noConfusion h
        | (cases Layer.conv2d.inj h; exact ⟨rfl, rfl, rfl⟩)
  · intro k s h
    simp only [VGG19.feature_extractor, conv3x3, List.mem_cons,
      List.not_mem_nil, or_false] at h
    rcases h with h|h|h|h|h|h|h|h|h|h|h|h|h|h|h|h|h|h|h|h|h|h|h|h|h|h|h|h|h <;>
      first
        | exact Layer.noConfusion h
        | exact Layer.maxPool2d.inj h

/-- Witness for C3 at the first convolution and the first pooling layer
of the `feature_extractor`. -/
theorem c3_vgg19_conv_pool_hyperparams_witness :
    ((⟨3, 64, 3, 1, 1, 1⟩ : Conv2dCfg).kernel_size = 3 ∧
     (⟨3, 64, 3, 1, 1, 1⟩ : Conv2dCfg).padding = 1 ∧
     (⟨3, 64, 3, 1, 1, 1⟩ : Conv2dCfg).stride = 1) ∧
    ((2 : Nat) = 2 ∧ (2 : Nat) = 2) :=
  ⟨c3_vgg19_conv_pool_hyperparams.1 ⟨3, 64, 3, 1, 1, 1⟩ (by decide),
   c3_vgg19_conv_pool_hyperparams.2 2 2 (by decide)⟩

/-- C4: `DepthwiseSeparableConv.forward` is the pointwise convolution
composed after the depthwise convolution; the depthwise layer is a 3×3
convolution with `groups = in_channels` mapping `in_channels` to
`in_channels` (so any activation it accepts keeps its channel count),
the pointwise layer is a 1×1, stride-1, zero-padding convolution
mapping `in_channels` to `out_channels`, and every `Conv2d` in
MobileNet's body of `DepthwiseSeparableConv` modules is the depthwise
or the pointwise half of one of them. -/
theorem c4_depthwise_separable :
    (∀ (m : DepthwiseSeparableConv) (x : Shape3),
        m.forward x = conv2dShape m.depthwise x >>= conv2dShape m.pointwise) ∧
    (∀ m : DepthwiseSeparableConv,
        m.depthwise.kernel_size = 3 ∧
        m.depthwise.groups = m.in_channels ∧
        m.depthwise.in_channels = m.in_channels ∧
        m.depthwise.out_channels = m.in_channels ∧
        m.pointwise.kernel_size = 1 ∧
        m.pointwise.stride = 1 ∧
        m.pointwise.padding = 0 ∧
        m.pointwise.in_channels = m.in_channels ∧
        m.pointwise.out_channels = m.out_channels) ∧
    (∀ (m : DepthwiseSeparableConv) (x y : Shape3),
        conv2dShape m.depthwise x = .ok y → y.channels = x.channels) ∧
    (∀ l ∈ (MobileNet.body.map DepthwiseSeparableConv.layers).flatten,
        ∃ m ∈ MobileNet.body,
          l = .conv2d m.depthwise ∨ l = .conv2d m.pointwise) := by
  refine ⟨?_, fun m => ⟨rfl, rfl, rfl, rfl, rfl, rfl, rfl, rfl, rfl⟩, ?_,
    by decide⟩
  · intro m x
    cases e1 : conv2dShape m.depthwise x with
    | error e => simp [DepthwiseSeparableConv.forward, e1, exceptBindError]
    | ok y =>
      cases e2 : conv2dShape m.pointwise y with
      | error e =>
        simp [DepthwiseSeparableConv.forward, e1, e2, exceptBindOk,
          exceptBindError]
      | ok z => simp [DepthwiseSeparableConv.forward, e1, e2, exceptBindOk]
  · intro m x y h
    unfold conv2dShape at h
    split at h
    next hc =>
      cases e1 : convOutDim x.height m.depthwise.kernel_size
          m.depthwise.stride m.depthwise.padding with
      | error e => rw [e1, exceptBindError] at h; exact absurd h (by simp)
      | ok a =>
        rw [e1, exceptBindOk] at h
        cases e2 : convOutDim x.width m.depthwise.kernel_size
            m.depthwise.stride m.depthwise.padding with
        | error e => rw [e2, exceptBindError] at h; exact absurd h (by simp)
        | ok b =>
          rw [e2, exceptBindOk] at h
          cases h
          rw [hc]
          rfl
    next hc => exact absurd h (by simp)

/-- Witness for C4: the depthwise half of `dw_conv3` keeps the channel
count of a `(64, 112, 112)` activation (it maps it to `(64, 56, 56)`). -/
theorem c4_depthwise_separable_witness :
    Shape3.channels ⟨64, 56, 56⟩ = Shape3.channels ⟨64, 112, 112⟩ :=
  c4_depthwise_separable.2.2.1 ⟨64, 128, 2⟩ ⟨64, 112, 112⟩ ⟨64, 56, 56⟩ rfl

/-- C7: a forward pass leaves the module object — all its submodules
and therefore every weight and bias they hold — unchanged, for any
semantics of the submodule calls: the `forward` methods only read the
fields of `self`.  Moreover the VGG19 shape semantics agrees with the
state-threading embedding instantiated at the actual submodules. -/
theorem c7_forward_frame :
    (∀ (W : Type) (ap : W → Shape3 → Except ShapeError Shape3)
        (af : W → Nat → Except ShapeError Nat)
        (self : VGG19Module W) (x : Shape3),
        (self.forwardRun ap af x).1 = self) ∧
    (∀ (W : Type) (ap apool : W → Shape3 → Except ShapeError Shape3)
        (afc : W → Nat → Except ShapeError Nat)
        (self : MobileNetModule W) (x : Shape3),
        (self.forwardRun ap apool afc x).1 = self) ∧
    (∀ (num_classes n : Nat) (s : Shape3),
        VGG19.forward num_classes n s =
          ((VGG19.module num_classes).forwardRun runLayers runFlatLayers s).2.map
            fun out => (n, out)) := by
  refine ⟨?_, fun W ap apool afc self x => rfl, ?_⟩
  · intro W ap af self x
    cases e1 : ap self.feature_extractor x with
    | error e => simp [VGG19Module.forwardRun, e1]
    | ok y =>
      cases e2 : af self.classifier y.flatten with
      | error e => simp [VGG19Module.forwardRun, e1, e2]
      | ok out => simp [VGG19Module.forwardRun, e1, e2]
  · intro num_classes n s
    cases e1 : runLayers VGG19.feature_extractor s with
    | error e =>
      simp [VGG19.forward, VGG19Module.forwardRun, VGG19.module, e1,
        Except.map, exceptBindError]
    | ok y =>
      simp only [VGG19.forward, VGG19Module.forwardRun, VGG19.module, e1,
        exceptBindOk]
      cases e2 : runFlatLayers (VGG19.classifier num_classes) y.flatten with
      | error e => simp [e2, Except.map, exceptBindError]
      | ok out => simp [e2, Except.map, exceptBindOk]

/-- C8: for every batch size and all spatial extents `H, W ≥ 1`,
`MobileNet(num_classes=1000).forward` on a `(N, 3, H, W)` input
succeeds and returns a `(N, 1000)` tensor: `AdaptiveAvgPool2d(1)`
makes the flattened feature size a constant `1024` regardless of the
input's spatial size. -/
theorem c8_mobilenet_any_spatial (n h w : Nat) (hh : 1 ≤ h) (hw : 1 ≤ w) :
    MobileNet.forward 1000 n ⟨3, h, w⟩ = .ok (n, 1000) := by
  have e1 : conv2dShape MobileNet.conv1 ⟨3, h, w⟩ =
      .ok ⟨32, (h - 1) / 2 + 1, (w - 1) / 2 + 1⟩ :=
    conv2dShape_eval MobileNet.conv1 ⟨3, h, w⟩ _ _ rfl
      (convOutDim_k3p1 h 2 hh) (convOutDim_k3p1 w 2 hw)
  obtain ⟨h', w', e2, hh', hw'⟩ :=
    runBody_eval MobileNet.body 32 ((h - 1) / 2 + 1) ((w - 1) / 2 + 1)
      (by decide) (Nat.le_add_left 1 _) (Nat.le_add_left 1 _)
  rw [show lastChannels 32 MobileNet.body = 1024 from rfl] at e2
  unfold MobileNet.forward
  rw [e1]
  simp only [exceptBindOk, Layer.applyShape]
  rw [e2]
  simp only [exceptBindOk, MobileNet.avg_pool, Layer.applyShape,
    MobileNet.fc, Layer.applyFlat]
  rw [if_neg (by omega)]
  simp only [exceptBindOk, Shape3.flatten]
  rw [if_pos (by norm_num)]
  rfl

/-- Witness for C8 at a batch of one `(3, 5, 37)` input. -/
theorem c8_mobilenet_any_spatial_witness :
    1 ≤ 5 ∧ 1 ≤ 37 ∧ MobileNet.forward 1000 1 ⟨3, 5, 37⟩ = .ok (1, 1000) :=
  ⟨by decide, by decide,
   c8_mobilenet_any_spatial 1 5 37 (by decide) (by decide)⟩

/-- C9: when the feature extractor succeeds, `VGG19.forward` succeeds
only if the output flattens to exactly `25088 = 512 * 7 * 7` features
per batch element; whenever the flattened size differs, the first
`Linear` layer of the classifier raises a shape-mismatch error and no
partial result is returned. -/
theorem c9_vgg19_flatten_guard :
    (∀ (num_classes n : Nat) (s f : Shape3),
        runLayers VGG19.feature_extractor s = .ok f →
        f.flatten ≠ 25088 →
        VGG19.forward num_classes n s =
          .error (.featureMismatch 25088 f.flatten)) ∧
    (∀ (num_classes n : Nat) (s : Shape3) (r : Nat × Nat),
        VGG19.forward num_classes n s = .ok r →
        ∃ f : Shape3, runLayers VGG19.feature_extractor s = .ok f ∧
          f.flatten = 25088) := by
  have key : ∀ (num_classes flat : Nat), flat ≠ 25088 →
      runFlatLayers (VGG19.classifier num_classes) flat =
        .error (.featureMismatch 25088 flat) := by
    intro C flat hne
    unfold VGG19.classifier
    unfold runFlatLayers
    simp only [Layer.applyFlat]
    rw [if_neg (by omega : ¬flat = 512 * 7 * 7), exceptBindError]
  have part1 : ∀ (num_classes n : Nat) (s f : Shape3),
      runLayers VGG19.feature_extractor s = .ok f →
      f.flatten ≠ 25088 →
      VGG19.forward num_classes n s =
        .error (.featureMismatch 25088 f.flatten) := by
    intro C n s f hok hne
    unfold VGG19.forward
    rw [hok]
    simp only [exceptBindOk]
    rw [key C f.flatten hne, exceptBindError]
  refine ⟨part1, ?_⟩
  intro C n s r hok
  cases e1 : runLayers VGG19.feature_extractor s with
  | error e =>
    unfold VGG19.forward at hok
    rw [e1, exceptBindError] at hok
    exact absurd hok (by simp)
  | ok f =>
    by_cases hf : f.flatten = 25088
    · exact ⟨f, rfl, hf⟩
    · rw [part1 C n s f e1 hf] at hok
      exact absurd hok (by simp)

/-- Witness for C9 at a `(1, 3, 32, 32)` input, whose feature-extractor
output `(512, 1, 1)` flattens to 512 features: `forward` fails in the
classifier's first `Linear` layer. -/
theorem c9_vgg19_flatten_guard_witness :
    runLayers VGG19.feature_extractor ⟨3, 32, 32⟩ = .ok ⟨512, 1, 1⟩ ∧
    Shape3.flatten ⟨512, 1, 1⟩ ≠ 25088 ∧
    VGG19.forward 1000 1 ⟨3, 32, 32⟩ =
      .error (.featureMismatch 25088 (Shape3.flatten ⟨512, 1, 1⟩)) :=
  ⟨rfl, by decide,
   c9_vgg19_flatten_guard.1 1000 1 ⟨3, 32, 32⟩ ⟨512, 1, 1⟩ rfl (by decide)⟩

end VisionNotebooks
